import Mathlib

/-!
Verification model of the markdown complexity pipeline in scripts/:
static-complexity-check.py (document scorer and pattern classifier),
check-complexity-threshold.py (baseline threshold comparator and report),
gpt-complexity-analyzer.py (promotion of semantic judgements), and
create-complexity-alert.py (alert aggregator).  Python numbers are modelled
as rationals, dictionaries as ordered association lists, console lines as
structured message values, and raised exceptions as Except errors.
-/

namespace ComplexityPipeline

/-! ### String helpers (Python `in`, `str.count`, `str.split`) -/

/-- Does the first character list lead the second (Python startswith on lists)? -/
def headMatch : List Char → List Char → Bool
  | [], _ => true
  | _ :: _, [] => false
  | a :: as, b :: bs => a == b && headMatch as bs

/-- Substring containment on character lists (Python `needle in haystack`). -/
def containsChars (needle : List Char) : List Char → Bool
  | [] => needle.isEmpty
  | b :: bs => headMatch needle (b :: bs) || containsChars needle bs

/-- Python `needle in haystack` on strings. -/
def strIn (needle haystack : String) : Bool :=
  containsChars needle.data haystack.data

/-- Count of non-overlapping occurrences, scanning left to right: Python
`str.count` and also the number of `re.findall` matches for a literal pattern. -/
def countOcc (needle : List Char) : List Char → Nat
  | [] => 0
  | b :: bs =>
    if headMatch needle (b :: bs) then
      1 + countOcc needle (List.drop (needle.length - 1) bs)
    else
      countOcc needle bs
termination_by l => l.length
decreasing_by
  · simp only [List.length_drop, List.length_cons]
    omega
  · simp only [List.length_cons]
    omega

/-- Python `haystack.count(needle)` for the non-empty literals used below. -/
def strCount (haystack needle : String) : Nat :=
  countOcc needle.data haystack.data

/-- Index of the first occurrence of `needle` (Python `str.find`, as an Option). -/
def firstIdx (needle : List Char) : List Char → Option Nat
  | [] => if needle.isEmpty then some 0 else none
  | b :: bs =>
    if headMatch needle (b :: bs) then some 0
    else (firstIdx needle bs).map (fun i => i + 1)

/-- ASCII upper-casing used to model `re.IGNORECASE`. -/
def upChars (s : String) : List Char :=
  s.data.map Char.toUpper

/-- Splitting a character list at every newline, keeping empty segments:
the semantics of Python `str.split` with an explicit separator. -/
def splitNl : List Char → List (List Char)
  | [] => [[]]
  | c :: cs =>
    if c = '\n' then [] :: splitNl cs
    else
      match splitNl cs with
      | [] => [[c]]
      | l :: ls => (c :: l) :: ls

/-- The lines of a Python `content.split(chr(10))`. -/
def pyLines (content : String) : List String :=
  (splitNl content.data).map (fun l => ⟨l⟩)

/-! ### Pattern classifier (static-complexity-check.py) -/

/-- The two regex shapes appearing in `conflict_patterns`: a plain literal, or
`A.*B` (two literals separated by a greedy dot-star). -/
inductive Pat
  | lit (s : String)
  | thenSeq (a b : String)
deriving DecidableEq

/-- `conflict_patterns` from MarkdownComplexityAnalyzer: regex source and label. -/
def conflict_patterns : List (Pat × String) :=
  [(Pat.thenSeq "CRITICAL" "MANDATORY", "Mandatory rule complexity"),
   (Pat.thenSeq "MUST" "BEFORE", "Sequential dependency complexity"),
   (Pat.thenSeq "NO" "continue", "Blocking rule complexity"),
   (Pat.lit "BLOCKED", "Blocking rule detected"),
   (Pat.thenSeq "REQUIRES" "MODE", "Mode dependency complexity"),
   (Pat.thenSeq "SWITCH" "MODE", "Mode transition complexity")]

/-- One line matches `A.*B` exactly when the first occurrence of `A` is followed,
later in the same line, by an occurrence of `B`.  Since the dot of `.*` does not
cross newlines and the scan resumes after the greedy match (which ends at the
last `B` of the line), `re.findall` finds at most one match per line, namely
this one. -/
def lineAthenB (a b line : List Char) : Bool :=
  match firstIdx a line with
  | none => false
  | some p => containsChars b (line.drop (p + a.length))

/-- `len(re.findall(pattern, content, re.IGNORECASE))` for the pattern shapes of
`conflict_patterns`. -/
def matchCount (p : Pat) (content : String) : Nat :=
  match p with
  | Pat.lit s => countOcc (upChars s) (upChars content)
  | Pat.thenSeq a b =>
    (pyLines content).countP (fun ln => lineAthenB (upChars a) (upChars b) (upChars ln))

/-! ### Document scorer (static-complexity-check.py, analyze_file) -/

/-- `complexity_indicators` weight table from MarkdownComplexityAnalyzer. -/
def complexity_indicators : List (String × ℚ) :=
  [("mermaid_diagrams", 5), ("code_blocks", 2), ("nested_headers", 3),
   ("conditional_logic", 4), ("workflow_steps", 2), ("file_size_kb", 1/10),
   ("critical_rules", 3), ("mode_transitions", 2), ("visual_maps", 4)]

/-- Weight lookup `self.complexity_indicators[name]`. -/
def indicatorWeight (name : String) : ℚ :=
  ((complexity_indicators.find? (fun kv => kv.1 == name)).map (fun kv => kv.2)).getD 0

/-- The per-document analysis record built by `analyze_file`.  The
`best_practice_violations` list (a second regex family that feeds neither the
score nor any field consumed downstream by the threshold pipeline) and the
always-empty `issues` list are not carried in the model. -/
structure Analysis where
  file_path : String
  complexity_score : ℚ
  size_kb : ℚ
  line_count : Nat
  conflicts : List String
  complexity_breakdown : List (String × Nat)
deriving DecidableEq

/-- `analyze_file`: scores one document text.  The file read is the
collaborator's concern; the model receives the decoded text. -/
def analyze_file (file_path content : String) : Analysis :=
  let size_kb : ℚ := (content.length : ℚ) / 1024
  let line_count : Nat := (pyLines content).length
  let mermaid_count := strCount content "graph" + strCount content "```mermaid"
  let code_blocks := strCount content "```"
  let nested_headers := (pyLines content).countP (fun ln => headMatch ['#', '#'] ln.data)
  let conditional_logic := strCount content "if" + strCount content "else" + strCount content "switch"
  let workflow_steps := strCount content "Step" + strCount content "Phase"
  let mode_transitions := strCount content "MODE" + strCount content "switch"
  let visual_maps := strCount content "mermaid" + strCount content "graph"
  let base_score : ℚ :=
    (mermaid_count : ℚ) * indicatorWeight "mermaid_diagrams"
    + (code_blocks : ℚ) * indicatorWeight "code_blocks"
    + (nested_headers : ℚ) * indicatorWeight "nested_headers"
    + (conditional_logic : ℚ) * indicatorWeight "conditional_logic"
    + (workflow_steps : ℚ) * indicatorWeight "workflow_steps"
    + (mode_transitions : ℚ) * indicatorWeight "mode_transitions"
    + (visual_maps : ℚ) * indicatorWeight "visual_maps"
    + size_kb * indicatorWeight "file_size_kb"
  let folded :=
    conflict_patterns.foldl
      (fun (acc : ℚ × List String) pd =>
        let n := matchCount pd.1 content
        if n ≠ 0 then
          (acc.1 + (n : ℚ) * indicatorWeight "critical_rules",
           acc.2 ++ [pd.2 ++ ": " ++ toString n ++ " instances"])
        else acc)
      (base_score, [])
  { file_path := file_path
    complexity_score := folded.1
    size_kb := size_kb
    line_count := line_count
    conflicts := folded.2
    complexity_breakdown :=
      [("mermaid_diagrams", mermaid_count), ("code_blocks", code_blocks),
       ("nested_headers", nested_headers), ("conditional_logic", conditional_logic),
       ("workflow_steps", workflow_steps), ("mode_transitions", mode_transitions),
       ("visual_maps", visual_maps)] }

/-- The conflict collection of analyze_repository (static-complexity-check.py):
per document, `results['conflicts_found'].extend(analysis['conflicts'])` — the
labels of all documents concatenate in corpus order, with no deduplication at
this stage. -/
def collectConflicts (docs : List Analysis) : List String :=
  docs.foldl (fun acc a => acc ++ a.conflicts) []

/-! ### Baseline threshold comparator (check-complexity-threshold.py) -/

/-- `self.baseline` from ComplexityThresholdChecker.__init__, in declaration
order (Python dicts preserve insertion order). -/
def baseline : List (String × Nat) :=
  [("workflow-level4.mdc", 80),
   ("reflection-comprehensive.mdc", 70),
   ("architectural-planning.mdc", 90),
   ("phased-implementation.mdc", 75),
   ("main-optimized.mdc", 60),
   ("hierarchical-rule-loading.mdc", 45),
   ("mode-transition-optimization.mdc", 40),
   ("optimization-integration.mdc", 50),
   ("optimized-workflow-level1.mdc", 30),
   ("optimized-creative-template.mdc", 35)]

/-- `self.threshold_multiplier = 2.0`. -/
def threshold_multiplier : ℚ := 2

/-- The baseline-resolution loop of check_threshold: the first key of the table,
in declaration order, that is a substring of the document id (with its score). -/
def findBaseline : List (String × Nat) → String → Option (String × Nat)
  | [], _ => none
  | (k, v) :: rest, file_path =>
    if strIn k file_path then some (k, v) else findBaseline rest file_path

/-- One entry of `static_results['file_analysis']` as read by check_threshold:
`complexity_score` is accessed directly, `size_kb` and `line_count` via
`.get(key, 0)`; the model takes the three numbers as given. -/
structure SAnalysis where
  complexity_score : ℚ
  size_kb : ℚ
  line_count : Nat
deriving DecidableEq

/-- The parsed static-results file, `file_analysis` in dict insertion order. -/
structure StaticResults where
  file_analysis : List (String × SAnalysis)
deriving DecidableEq

/-- One entry of `gpt_results['high_complexity_files']` (field order as built by
gpt-complexity-analyzer.py). -/
structure GEntry where
  file : String
  complexity : ℚ
  cursor_compatibility : ℚ
  size_kb : ℚ
  line_count : Nat
deriving DecidableEq

/-- The parsed GPT-results file as read by check_threshold. -/
structure GptResults where
  high_complexity_files : List GEntry
deriving DecidableEq

/-- One element of `threshold_report['exceeded_files']`. -/
structure ExceededInfo where
  file : String
  current_score : ℚ
  baseline_score : ℚ
  threshold : ℚ
  excess_percentage : ℚ
  size_kb : ℚ
  line_count : Nat
deriving DecidableEq

/-- `threshold_report['summary']`. -/
structure Summary where
  files_checked : Nat
  files_exceeded : Nat
  total_baseline : Nat
  total_current : ℚ
deriving DecidableEq

/-- The console warning strings appended to `threshold_report['warnings']`, one
constructor per f-string of the source: the SEMANTIC line and the CURSOR line. -/
inductive WarningMsg
  | semantic (file : String) (complexity : ℚ)
  | cursor (file : String) (compat : ℚ)
deriving DecidableEq

/-- The recommendation strings appended to `threshold_report['recommendations']`,
one constructor per f-string/string literal of the source: the per-file CRITICAL
and WARNING lines and the three canned guidance strings. -/
inductive Recommendation
  | critical (file : String) (excessPct : ℚ)
  | warning (file : String) (excessPct : ℚ)
  | splitComplexFiles
  | reviewMandatoryRules
  | consolidateSimilar
deriving DecidableEq

/-- `threshold_report` (field order as built by check_threshold). -/
structure Report where
  timestamp : String
  threshold_exceeded : Bool
  exceeded_files : List ExceededInfo
  warnings : List WarningMsg
  recommendations : List Recommendation
  summary : Summary
deriving DecidableEq

/-- The body of the static-results loop of check_threshold, for one
`(file_path, analysis)` entry: count the document, add its score to the
corpus total, then resolve its baseline and emit a verdict plus a severity
recommendation when the score strictly exceeds `baseline * multiplier`.
The source would raise ZeroDivisionError on a zero baseline score; the
configured table has positive scores only, and the theorems that talk about
the excess percentage assume a positive baseline. -/
def processStatic (table : List (String × Nat)) (r : Report) (e : String × SAnalysis) : Report :=
  let r1 : Report :=
    { r with summary :=
      { r.summary with
        files_checked := r.summary.files_checked + 1,
        total_current := r.summary.total_current + e.2.complexity_score } }
  match findBaseline table e.1 with
  | none => r1
  | some (_, baseline_score) =>
    let threshold : ℚ := (baseline_score : ℚ) * threshold_multiplier
    let current_score : ℚ := e.2.complexity_score
    if current_score > threshold then
      let excess_percentage : ℚ := (current_score - threshold) / threshold * 100
      { r1 with
        threshold_exceeded := true,
        summary := { r1.summary with files_exceeded := r1.summary.files_exceeded + 1 },
        exceeded_files := r1.exceeded_files ++
          [⟨e.1, current_score, (baseline_score : ℚ), threshold, excess_percentage,
            e.2.size_kb, e.2.line_count⟩],
        recommendations := r1.recommendations ++
          [if excess_percentage > 50 then Recommendation.critical e.1 excess_percentage
           else Recommendation.warning e.1 excess_percentage] }
    else r1

/-- The body of the GPT-results loop of check_threshold, for one
`high_complexity_files` entry: a SEMANTIC warning when `complexity > 8`, then a
CURSOR warning when `cursor_compatibility < 5`. -/
def processGpt (r : Report) (e : GEntry) : Report :=
  let r1 : Report :=
    if e.complexity > 8 then
      { r with warnings := r.warnings ++ [WarningMsg.semantic e.file e.complexity] }
    else r
  if e.cursor_compatibility < 5 then
    { r1 with warnings := r1.warnings ++ [WarningMsg.cursor e.file e.cursor_compatibility] }
  else r1

/-- `static_results['file_analysis']` guarded by
`if static_results and 'file_analysis' in static_results` (an absent or empty
file contributes no entries). -/
def staticEntries : Option StaticResults → List (String × SAnalysis)
  | some s => s.file_analysis
  | none => []

/-- `gpt_results['high_complexity_files']` guarded by the analogous check. -/
def gptEntries : Option GptResults → List GEntry
  | some g => g.high_complexity_files
  | none => []

/-- `check_threshold`, given the two loaded result files and the timestamp: the
initial report, the static loop, the GPT loop, and the two overall
recommendation blocks. -/
def checkThreshold (table : List (String × Nat)) (static_results : Option StaticResults)
    (gpt_results : Option GptResults) (ts : String) : Report :=
  let r0 : Report :=
    ⟨ts, false, [], [], [], ⟨0, 0, (table.map (fun kv => kv.2)).sum, 0⟩⟩
  let r1 := (staticEntries static_results).foldl (processStatic table) r0
  let r2 := (gptEntries gpt_results).foldl processGpt r1
  let r3 :=
    if r2.threshold_exceeded then
      { r2 with recommendations := r2.recommendations ++
        [Recommendation.splitComplexFiles, Recommendation.reviewMandatoryRules] }
    else r2
  if r3.warnings.length > 5 then
    { r3 with recommendations := r3.recommendations ++ [Recommendation.consolidateSimilar] }
  else r3

/-- The exit code of `main`: `sys.exit(0 if success else 1)` where `main`
returns False exactly when `report['threshold_exceeded']` is true. -/
def main_exit_code (table : List (String × Nat)) (static_results : Option StaticResults)
    (gpt_results : Option GptResults) (ts : String) : Nat :=
  if (checkThreshold table static_results gpt_results ts).threshold_exceeded then 1 else 0

/-! ### Input files and loaders -/

/-- The state of a JSON input file on disk: absent, present but unparsable, or
parsed to a value of the expected shape. -/
inductive FileState (α : Type)
  | missing
  | malformed
  | parsed (v : α)

/-- Python exceptions raised by the modelled code. -/
inductive PyErr
  | jsonDecodeError
  | typeErrorSetNotSubscriptable
deriving DecidableEq

/-- `load_static_results`: catches FileNotFoundError only (returning the falsy
`{}`, modelled as `none`); a json.JSONDecodeError from an unparsable file is not
caught and propagates. -/
def load_static_results : FileState StaticResults → Except PyErr (Option StaticResults)
  | FileState.missing => Except.ok none
  | FileState.malformed => Except.error PyErr.jsonDecodeError
  | FileState.parsed v => Except.ok (some v)

/-- `load_gpt_results`: same structure as `load_static_results`. -/
def load_gpt_results : FileState GptResults → Except PyErr (Option GptResults)
  | FileState.missing => Except.ok none
  | FileState.malformed => Except.error PyErr.jsonDecodeError
  | FileState.parsed v => Except.ok (some v)

/-- The full `check_threshold` run including its two loads: an uncaught loader
exception propagates out of the method. -/
def check_threshold_run (fsS : FileState StaticResults) (fsG : FileState GptResults)
    (ts : String) : Except PyErr Report := do
  let s ← load_static_results fsS
  let g ← load_gpt_results fsG
  pure (checkThreshold baseline s g ts)

/-! ### Promotion of semantic judgements (gpt-complexity-analyzer.py) -/

/-- The per-file analysis assembled by analyze_repository_semantic after the
collaborator calls: the fields read by the promotion step. -/
structure Judgement where
  file_path : String
  size_kb : ℚ
  line_count : Nat
  complexity_rating : ℚ
  cursor_compatibility : ℚ
deriving DecidableEq

/-- The `high_complexity_files` entry built from a judgement. -/
def mkEntry (j : Judgement) : GEntry :=
  ⟨j.file_path, j.complexity_rating, j.cursor_compatibility, j.size_kb, j.line_count⟩

/-- The promotion loop of analyze_repository_semantic: a judgement is appended
to `high_complexity_files` exactly when `complexity_rating > 7`. -/
def promoteHigh (js : List Judgement) : List GEntry :=
  js.foldl (fun acc j => if j.complexity_rating > 7 then acc ++ [mkEntry j] else acc) []

/-! ### Alert aggregator (create-complexity-alert.py) -/

/-- `load_json_file`: catches both FileNotFoundError and json.JSONDecodeError,
returning the falsy `{}` (modelled as `none`) in both cases. -/
def load_json_file {α : Type} : FileState α → Option α
  | FileState.missing => none
  | FileState.malformed => none
  | FileState.parsed v => some v

/-- One element of `exceeded_files` as read back by create_alert. -/
structure ThrFileInfo where
  file : String
  current_score : ℚ
  baseline_score : ℚ
  threshold : ℚ
  excess_percentage : ℚ
deriving DecidableEq

/-- The threshold-results file as read by create_alert. -/
structure ThrResults where
  exceeded_files : List ThrFileInfo
  recommendations : List String
deriving DecidableEq

/-- One element of the static `high_complexity_files` list as read by
create_alert. -/
structure StaticHighFile where
  file : String
  score : ℚ
deriving DecidableEq

/-- The static-results file as read by create_alert. -/
structure StaticResultsFile where
  high_complexity_files : List StaticHighFile
  conflicts_found : List String
  best_practice_violations : List String
  recommendations : List String
deriving DecidableEq

/-- The GPT-results file as read by create_alert. -/
structure GptResultsFile where
  high_complexity_files : List GEntry
  rule_conflicts : List String
  best_practice_violations : List String
  cursor_compatibility_issues : List String
deriving DecidableEq

/-- The lines appended to `alert_parts`, one constructor per append site of the
source; the multi-line blocks for a single exceeded file collapse into one
structured value, and the fixed next-steps/reports tail into `nextSteps`. -/
inductive AlertPart
  | headerExceeded
  | blank
  | headerCritical
  | headerFilesExceeding
  | exceededItem (file : String) (current baselineScore thresholdVal excess : ℚ)
  | headerStaticHigh
  | staticHighItem (file : String) (score : ℚ)
  | headerGptHigh
  | gptHighItem (file : String) (complexity : ℚ)
  | headerConflicts
  | conflictItem (s : String)
  | headerViolations
  | violationItem (s : String)
  | headerCursor
  | cursorItem (s : String)
  | headerActions
  | recItem (s : String)
  | nextSteps
deriving DecidableEq

/-- The evaluation of `set(xs)[:10]` in Python 3: a set object is not
subscriptable, so slicing it raises TypeError before any element is produced,
whatever the set contains. -/
def pySetSubscript {α : Type} (_xs : List α) : Except PyErr (List α) :=
  Except.error PyErr.typeErrorSetNotSubscriptable

/-- `create_alert`, given the three loaded files (`none` models the falsy `{}`
from a missing or unparsable file): builds the alert parts section by section;
the conflict, violation and cursor-issue sections each evaluate
`set(...)[:10]` when their list is non-empty. -/
def create_alert (threshold_results : Option ThrResults)
    (static_results : Option StaticResultsFile)
    (gpt_results : Option GptResultsFile) : Except PyErr (List AlertPart) := do
  let p0 : List AlertPart :=
    [AlertPart.headerExceeded, AlertPart.blank, AlertPart.headerCritical, AlertPart.blank]
  let p1 := p0 ++
    (match threshold_results with
     | some t =>
       if !t.exceeded_files.isEmpty then
         [AlertPart.headerFilesExceeding] ++
         t.exceeded_files.flatMap (fun f =>
           [AlertPart.exceededItem f.file f.current_score f.baseline_score
              f.threshold f.excess_percentage, AlertPart.blank])
       else []
     | none => [])
  let p2 := p1 ++
    (match static_results with
     | some s =>
       if !s.high_complexity_files.isEmpty then
         [AlertPart.headerStaticHigh] ++
         (s.high_complexity_files.take 5).map (fun f => AlertPart.staticHighItem f.file f.score) ++
         [AlertPart.blank]
       else []
     | none => [])
  let p3 := p2 ++
    (match gpt_results with
     | some g =>
       if !g.high_complexity_files.isEmpty then
         [AlertPart.headerGptHigh] ++
         (g.high_complexity_files.take 5).map (fun f => AlertPart.gptHighItem f.file f.complexity) ++
         [AlertPart.blank]
       else []
     | none => [])
  let conflicts :=
    (match static_results with | some s => s.conflicts_found | none => []) ++
    (match gpt_results with | some g => g.rule_conflicts | none => [])
  let p4 ←
    if !conflicts.isEmpty then do
      let withHeader := p3 ++ [AlertPart.headerConflicts]
      let deduped ← pySetSubscript conflicts
      pure (withHeader ++ deduped.map AlertPart.conflictItem ++ [AlertPart.blank])
    else pure p3
  let violations :=
    (match static_results with | some s => s.best_practice_violations | none => []) ++
    (match gpt_results with | some g => g.best_practice_violations | none => [])
  let p5 ←
    if !violations.isEmpty then do
      let withHeader := p4 ++ [AlertPart.headerViolations]
      let deduped ← pySetSubscript violations
      pure (withHeader ++ deduped.map AlertPart.violationItem ++ [AlertPart.blank])
    else pure p4
  let p6 ←
    match gpt_results with
    | some g =>
      if !g.cursor_compatibility_issues.isEmpty then do
        let withHeader := p5 ++ [AlertPart.headerCursor]
        let deduped ← pySetSubscript g.cursor_compatibility_issues
        pure (withHeader ++ deduped.map AlertPart.cursorItem ++ [AlertPart.blank])
      else pure p5
    | none => pure p5
  let recommendations :=
    (match threshold_results with | some t => t.recommendations | none => []) ++
    (match static_results with | some s => s.recommendations | none => [])
  let p7 :=
    if !recommendations.isEmpty then
      p6 ++ [AlertPart.headerActions] ++
      (recommendations.take 10).map AlertPart.recItem ++ [AlertPart.blank]
    else p6
  pure (p7 ++ [AlertPart.nextSteps])

/-! ### Characterization lemmas for the comparator -/

/-- The verdict (zero or one `exceeded_files` entries) that one static entry
contributes. -/
def emitVerdicts (table : List (String × Nat)) (e : String × SAnalysis) : List ExceededInfo :=
  match findBaseline table e.1 with
  | none => []
  | some (_, b) =>
    if e.2.complexity_score > (b : ℚ) * threshold_multiplier then
      [⟨e.1, e.2.complexity_score, (b : ℚ), (b : ℚ) * threshold_multiplier,
        (e.2.complexity_score - (b : ℚ) * threshold_multiplier)
          / ((b : ℚ) * threshold_multiplier) * 100,
        e.2.size_kb, e.2.line_count⟩]
    else []

/-- The severity recommendation (zero or one) that one static entry contributes. -/
def emitRecs (table : List (String × Nat)) (e : String × SAnalysis) : List Recommendation :=
  match findBaseline table e.1 with
  | none => []
  | some (_, b) =>
    if e.2.complexity_score > (b : ℚ) * threshold_multiplier then
      [if (e.2.complexity_score - (b : ℚ) * threshold_multiplier)
            / ((b : ℚ) * threshold_multiplier) * 100 > 50
       then Recommendation.critical e.1
              ((e.2.complexity_score - (b : ℚ) * threshold_multiplier)
                / ((b : ℚ) * threshold_multiplier) * 100)
       else Recommendation.warning e.1
              ((e.2.complexity_score - (b : ℚ) * threshold_multiplier)
                / ((b : ℚ) * threshold_multiplier) * 100)]
    else []

/-- The warnings that one GPT entry contributes. -/
def gptWarn (e : GEntry) : List WarningMsg :=
  (if e.complexity > 8 then [WarningMsg.semantic e.file e.complexity] else []) ++
  (if e.cursor_compatibility < 5 then [WarningMsg.cursor e.file e.cursor_compatibility] else [])

lemma isEmpty_append (a b : List ExceededInfo) :
    (a ++ b).isEmpty = (a.isEmpty && b.isEmpty) := by
  cases a <;> simp

lemma processStatic_eq (table : List (String × Nat)) (r : Report) (e : String × SAnalysis) :
    processStatic table r e =
      { r with
        threshold_exceeded := r.threshold_exceeded || !(emitVerdicts table e).isEmpty,
        exceeded_files := r.exceeded_files ++ emitVerdicts table e,
        recommendations := r.recommendations ++ emitRecs table e,
        summary := { r.summary with
          files_checked := r.summary.files_checked + 1,
          files_exceeded := r.summary.files_exceeded + (emitVerdicts table e).length,
          total_current := r.summary.total_current + e.2.complexity_score } } := by
  unfold processStatic emitVerdicts emitRecs
  cases hfb : findBaseline table e.1 with
  | none => simp
  | some kb =>
    obtain ⟨k, b⟩ := kb
    by_cases hgt : e.2.complexity_score > (b : ℚ) * threshold_multiplier
    · simp [hgt]
    · simp [hgt]

lemma processGpt_eq (r : Report) (e : GEntry) :
    processGpt r e = { r with warnings := r.warnings ++ gptWarn e } := by
  unfold processGpt gptWarn
  by_cases h1 : e.complexity > 8 <;> by_cases h2 : e.cursor_compatibility < 5 <;>
    simp [h1, h2]

lemma foldStatic_eq (table : List (String × Nat)) :
    ∀ (l : List (String × SAnalysis)) (r : Report),
      l.foldl (processStatic table) r =
        { r with
          threshold_exceeded :=
            r.threshold_exceeded || !(l.flatMap (emitVerdicts table)).isEmpty,
          exceeded_files := r.exceeded_files ++ l.flatMap (emitVerdicts table),
          recommendations := r.recommendations ++ l.flatMap (emitRecs table),
          summary := { r.summary with
            files_checked := r.summary.files_checked + l.length,
            files_exceeded :=
              r.summary.files_exceeded + (l.flatMap (emitVerdicts table)).length,
            total_current :=
              r.summary.total_current + (l.map (fun e => e.2.complexity_score)).sum } } := by
  intro l
  induction l with
  | nil => intro r; simp
  | cons e t ih =>
    intro r
    rw [List.foldl_cons, ih, processStatic_eq]
    simp [isEmpty_append, Bool.not_and, Bool.or_assoc, Nat.add_assoc, add_assoc,
      Nat.add_comm 1 t.length]

lemma foldGpt_eq :
    ∀ (l : List GEntry) (r : Report),
      l.foldl processGpt r = { r with warnings := r.warnings ++ l.flatMap gptWarn } := by
  intro l
  induction l with
  | nil => intro r; simp
  | cons e t ih =>
    intro r
    rw [List.foldl_cons, ih, processGpt_eq]
    simp

lemma checkThreshold_eq (table : List (String × Nat)) (st : Option StaticResults)
    (gpt : Option GptResults) (ts : String) :
    checkThreshold table st gpt ts =
      { timestamp := ts,
        threshold_exceeded := !((staticEntries st).flatMap (emitVerdicts table)).isEmpty,
        exceeded_files := (staticEntries st).flatMap (emitVerdicts table),
        warnings := (gptEntries gpt).flatMap gptWarn,
        recommendations :=
          (staticEntries st).flatMap (emitRecs table)
          ++ (if !((staticEntries st).flatMap (emitVerdicts table)).isEmpty then
                [Recommendation.splitComplexFiles, Recommendation.reviewMandatoryRules]
              else [])
          ++ (if ((gptEntries gpt).flatMap gptWarn).length > 5 then
                [Recommendation.consolidateSimilar]
              else []),
        summary :=
          { files_checked := (staticEntries st).length,
            files_exceeded := ((staticEntries st).flatMap (emitVerdicts table)).length,
            total_baseline := (table.map (fun kv => kv.2)).sum,
            total_current := ((staticEntries st).map (fun e => e.2.complexity_score)).sum } } := by
  simp only [checkThreshold]
  rw [foldStatic_eq, foldGpt_eq]
  split_ifs <;> simp_all <;> omega

lemma mem_emitVerdicts {table : List (String × Nat)} {e : String × SAnalysis}
    {x : ExceededInfo} (hx : x ∈ emitVerdicts table e) :
    x.file = e.1 ∧ (findBaseline table e.1).isSome := by
  unfold emitVerdicts at hx
  cases hfb : findBaseline table e.1 with
  | none => rw [hfb] at hx; simp at hx
  | some kb =>
    obtain ⟨k, b⟩ := kb
    simp only [hfb] at hx
    split at hx
    · simp at hx
      subst hx
      simp
    · simp at hx

lemma promoteHigh_eq (js : List Judgement) :
    promoteHigh js =
      js.flatMap (fun j => if j.complexity_rating > 7 then [mkEntry j] else []) := by
  suffices h : ∀ acc,
      js.foldl (fun acc j => if j.complexity_rating > 7 then acc ++ [mkEntry j] else acc) acc =
        acc ++ js.flatMap (fun j => if j.complexity_rating > 7 then [mkEntry j] else []) by
    simpa [promoteHigh] using h []
  induction js with
  | nil => intro acc; simp
  | cons j t ih =>
    intro acc
    rw [List.foldl_cons]
    by_cases hj : j.complexity_rating > 7 <;> simp [hj, ih]

lemma mem_promoteHigh (e : GEntry) (js : List Judgement) :
    e ∈ promoteHigh js ↔ ∃ j ∈ js, j.complexity_rating > 7 ∧ e = mkEntry j := by
  rw [promoteHigh_eq]
  simp only [List.mem_flatMap]
  constructor
  · rintro ⟨j, hj, hmem⟩
    by_cases h7 : j.complexity_rating > 7
    · rw [if_pos h7] at hmem
      simp at hmem
      exact ⟨j, hj, h7, hmem⟩
    · rw [if_neg h7] at hmem
      simp at hmem
  · rintro ⟨j, hj, h7, he⟩
    exact ⟨j, hj, by simp [if_pos h7, he]⟩

lemma semantic_mem_gptWarn (f : String) (c : ℚ) (e : GEntry) :
    WarningMsg.semantic f c ∈ gptWarn e ↔ e.file = f ∧ e.complexity = c ∧ e.complexity > 8 := by
  unfold gptWarn
  by_cases h1 : e.complexity > 8 <;> by_cases h2 : e.cursor_compatibility < 5 <;>
    simp [h1, h2, eq_comm]

lemma cursor_mem_gptWarn (f : String) (c : ℚ) (e : GEntry) :
    WarningMsg.cursor f c ∈ gptWarn e ↔
      e.file = f ∧ e.cursor_compatibility = c ∧ e.cursor_compatibility < 5 := by
  unfold gptWarn
  by_cases h1 : e.complexity > 8 <;> by_cases h2 : e.cursor_compatibility < 5 <;>
    simp [h1, h2, eq_comm]

/-! ### The claims -/

/-- C1: for every document whose id resolves to a baseline score `b` (positive,
as all configured baselines are), the static loop emits a verdict exactly when
`currentScore > b * 2`; the emitted verdict carries `threshold = b * 2` and
`excessPct = (currentScore - threshold) / threshold * 100`, and its severity
recommendation is critical exactly when `excessPct > 50`, warning otherwise.
In particular the end-to-end scenario with baseline table A = 100 and a
document scored 250 yields one verdict with threshold 200, excessPct 25 and
severity warning, and the boundary case 240 against baseline 80 (excess
exactly 50) is still a warning. -/
theorem comparator_verdict_spec :
    (∀ (table : List (String × Nat)) (r : Report) (id : String) (a : SAnalysis)
        (k : String) (b : Nat),
      findBaseline table id = some (k, b) → 0 < b →
      ((processStatic table r (id, a)).exceeded_files =
          r.exceeded_files ++
          (if a.complexity_score > (b : ℚ) * 2 then
            [⟨id, a.complexity_score, (b : ℚ), (b : ℚ) * 2,
              (a.complexity_score - (b : ℚ) * 2) / ((b : ℚ) * 2) * 100,
              a.size_kb, a.line_count⟩]
          else [])
        ∧ (processStatic table r (id, a)).recommendations =
          r.recommendations ++
          (if a.complexity_score > (b : ℚ) * 2 then
            [if (a.complexity_score - (b : ℚ) * 2) / ((b : ℚ) * 2) * 100 > 50 then
              Recommendation.critical id
                ((a.complexity_score - (b : ℚ) * 2) / ((b : ℚ) * 2) * 100)
            else
              Recommendation.warning id
                ((a.complexity_score - (b : ℚ) * 2) / ((b : ℚ) * 2) * 100)]
          else [])))
  ∧ (checkThreshold [("A", 100)] (some ⟨[("docs/A-notes.md", ⟨250, 0, 0⟩)]⟩) none "t").exceeded_files
      = [⟨"docs/A-notes.md", 250, 100, 200, 25, 0, 0⟩]
  ∧ (checkThreshold [("A", 100)] (some ⟨[("docs/A-notes.md", ⟨250, 0, 0⟩)]⟩) none "t").recommendations
      = [Recommendation.warning "docs/A-notes.md" 25, Recommendation.splitComplexFiles,
         Recommendation.reviewMandatoryRules]
  ∧ (checkThreshold [("B", 80)] (some ⟨[("docs/B.md", ⟨240, 0, 0⟩)]⟩) none "t").recommendations
      = [Recommendation.warning "docs/B.md" 50, Recommendation.splitComplexFiles,
         Recommendation.reviewMandatoryRules] := by
  refine ⟨?_, ?_, ?_, ?_⟩
  · intro table r id a k b hfb _hb
    rw [processStatic_eq]
    unfold emitVerdicts emitRecs
    rw [hfb]
    constructor <;> simp [threshold_multiplier]
  · have hfb : findBaseline [("A", 100)] "docs/A-notes.md" = some ("A", 100) := by decide
    rw [checkThreshold_eq]
    norm_num [staticEntries, emitVerdicts, hfb, threshold_multiplier]
  · have hfb : findBaseline [("A", 100)] "docs/A-notes.md" = some ("A", 100) := by decide
    rw [checkThreshold_eq]
    norm_num [staticEntries, emitVerdicts, emitRecs, gptEntries, hfb, threshold_multiplier]
  · have hfb : findBaseline [("B", 80)] "docs/B.md" = some ("B", 80) := by decide
    rw [checkThreshold_eq]
    norm_num [staticEntries, emitVerdicts, emitRecs, gptEntries, hfb, threshold_multiplier]

/-- Witness for C1: the general clause applied to the concrete end-to-end
scenario (baseline table A = 100, document docs/A-notes.md scored 250). -/
theorem comparator_verdict_spec_instance :
    (processStatic [("A", 100)] ⟨"", false, [], [], [], ⟨0, 0, 100, 0⟩⟩
        ("docs/A-notes.md", ⟨250, 0, 0⟩)).exceeded_files =
      ([] : List ExceededInfo) ++
      (if (250 : ℚ) > (100 : ℚ) * 2 then
        [⟨"docs/A-notes.md", (250 : ℚ), (100 : ℚ), (100 : ℚ) * 2,
          ((250 : ℚ) - (100 : ℚ) * 2) / ((100 : ℚ) * 2) * 100, 0, 0⟩]
      else []) :=
  (comparator_verdict_spec.1 [("A", 100)] ⟨"", false, [], [], [], ⟨0, 0, 100, 0⟩⟩
    "docs/A-notes.md" ⟨250, 0, 0⟩ "A" 100 (by decide) (by decide)).1

/-- C2: the overall gate boolean is true exactly when at least one verdict was
emitted, and the process exit code is 0 exactly when the gate is false and 1
exactly when it is true. -/
theorem gate_iff_verdicts_and_exit_code :
    ∀ (table : List (String × Nat)) (st : Option StaticResults)
      (gpt : Option GptResults) (ts : String),
      ((checkThreshold table st gpt ts).threshold_exceeded = true ↔
        (checkThreshold table st gpt ts).exceeded_files ≠ [])
    ∧ (main_exit_code table st gpt ts = 0 ↔ (checkThreshold table st gpt ts).exceeded_files = [])
    ∧ (main_exit_code table st gpt ts = 1 ↔ (checkThreshold table st gpt ts).exceeded_files ≠ []) := by
  intro table st gpt ts
  unfold main_exit_code
  rw [checkThreshold_eq]
  by_cases h : (staticEntries st).flatMap (emitVerdicts table) = [] <;> simp [h]

/-- C9: scoring is a pure function of the document text, and the comparator
report is independent of the timestamp input — every field of the report other
than the timestamp itself coincides across two runs on identical result files,
baseline table and multiplier. -/
theorem scoring_and_comparator_deterministic :
    ∀ (p c : String) (table : List (String × Nat)) (st : Option StaticResults)
      (gpt : Option GptResults) (ts1 ts2 : String),
      analyze_file p c = analyze_file p c
    ∧ (checkThreshold table st gpt ts1).exceeded_files
        = (checkThreshold table st gpt ts2).exceeded_files
    ∧ (checkThreshold table st gpt ts1).warnings = (checkThreshold table st gpt ts2).warnings
    ∧ (checkThreshold table st gpt ts1).recommendations
        = (checkThreshold table st gpt ts2).recommendations
    ∧ (checkThreshold table st gpt ts1).summary = (checkThreshold table st gpt ts2).summary
    ∧ (checkThreshold table st gpt ts1).threshold_exceeded
        = (checkThreshold table st gpt ts2).threshold_exceeded := by
  intro p c table st gpt ts1 ts2
  refine ⟨rfl, ?_, ?_, ?_, ?_, ?_⟩ <;> rw [checkThreshold_eq, checkThreshold_eq]

/-- C10 (corrected): the configured baseline table total is 575, not 455. -/
theorem total_baseline_is_575_not_455 :
    (checkThreshold baseline none none "t").summary.total_baseline = 575
  ∧ (575 : Nat) ≠ 455 := by
  constructor
  · rw [checkThreshold_eq]; rfl
  · decide

/-- C10 (amended): in every run, summary.total_baseline equals the sum of all
configured baseline scores — 575 for the ten-entry table — regardless of which
documents appear in the input corpus. -/
theorem total_baseline_constant_575 :
    ∀ (st : Option StaticResults) (gpt : Option GptResults) (ts : String),
      (checkThreshold baseline st gpt ts).summary.total_baseline = 575 := by
  intro st gpt ts
  rw [checkThreshold_eq]
  rfl

/-- C3 (counterexample): a judgement with complexityRating 8 is promoted into
high_complexity_files by the producer (8 > 7), yet the threshold report emits
no warning at all for it — the report warns only above 8, refuting the claimed
"exactly when complexityRating > 7". -/
theorem semantic_warning_rating_eight_not_flagged :
    promoteHigh [⟨"file-a.md", 0, 0, 8, 10⟩] = [⟨"file-a.md", 8, 10, 0, 0⟩]
  ∧ (8 : ℚ) > 7
  ∧ (checkThreshold baseline none (some ⟨[⟨"file-a.md", 8, 10, 0, 0⟩]⟩) "t").warnings = [] := by
  refine ⟨?_, by norm_num, ?_⟩
  · norm_num [promoteHigh, mkEntry]
  · rw [checkThreshold_eq]
    norm_num [gptEntries, gptWarn]

/-- C3 (amended): across the producer and the threshold report, a judgement
receives a semantic warning exactly when its complexityRating exceeds 8 (the
producer promotes at rating > 7 and the report then warns at rating > 8), and
a low-Cursor-compatibility warning exactly when it is promoted
(complexityRating > 7) and its cursorCompatibility < 5. -/
theorem semantic_and_cursor_flag_characterization :
    ∀ (table : List (String × Nat)) (st : Option StaticResults) (ts : String)
      (js : List Judgement) (f : String) (c : ℚ),
      (WarningMsg.semantic f c ∈
          (checkThreshold table st (some ⟨promoteHigh js⟩) ts).warnings ↔
        ∃ j ∈ js, j.file_path = f ∧ j.complexity_rating = c ∧ c > 8)
    ∧ (WarningMsg.cursor f c ∈
          (checkThreshold table st (some ⟨promoteHigh js⟩) ts).warnings ↔
        ∃ j ∈ js, j.file_path = f ∧ j.cursor_compatibility = c ∧
          j.complexity_rating > 7 ∧ c < 5) := by
  intro table st ts js f c
  rw [checkThreshold_eq]
  simp only [gptEntries, List.mem_flatMap]
  constructor
  · constructor
    · rintro ⟨e, he, hw⟩
      obtain ⟨j, hj, h7, rfl⟩ := (mem_promoteHigh e js).1 he
      obtain ⟨hf, hc, h8⟩ := (semantic_mem_gptWarn f c (mkEntry j)).1 hw
      simp only [mkEntry] at hf hc h8
      exact ⟨j, hj, hf, hc, hc ▸ h8⟩
    · rintro ⟨j, hj, hf, hc, h8⟩
      refine ⟨mkEntry j, (mem_promoteHigh (mkEntry j) js).2 ⟨j, hj, ?_, rfl⟩, ?_⟩
      · rw [hc]; linarith
      · exact (semantic_mem_gptWarn f c (mkEntry j)).2 (by simp [mkEntry, hf, hc]; exact h8)
  · constructor
    · rintro ⟨e, he, hw⟩
      obtain ⟨j, hj, h7, rfl⟩ := (mem_promoteHigh e js).1 he
      obtain ⟨hf, hc, h5⟩ := (cursor_mem_gptWarn f c (mkEntry j)).1 hw
      simp only [mkEntry] at hf hc h5
      exact ⟨j, hj, hf, hc, h7, hc ▸ h5⟩
    · rintro ⟨j, hj, hf, hc, h7, h5⟩
      refine ⟨mkEntry j, (mem_promoteHigh (mkEntry j) js).2 ⟨j, hj, h7, rfl⟩, ?_⟩
      exact (cursor_mem_gptWarn f c (mkEntry j)).2 (by simp [mkEntry, hf, hc]; exact h5)

/-- C4: the aggregator completes on fully empty inputs, but raises TypeError
(a Python set is not subscriptable) as soon as the inputs contain a single
conflict label — the claim that building the report never raises is refuted by
the code; the `set(conflicts)[:10]` slice is a slip, since every non-empty
conflict list crashes the run the surrounding code clearly intends to survive. -/
theorem create_alert_raises_on_conflicts :
    create_alert none none none =
      Except.ok [AlertPart.headerExceeded, AlertPart.blank, AlertPart.headerCritical,
        AlertPart.blank, AlertPart.nextSteps]
  ∧ create_alert none (some ⟨[], ["Blocking rule detected: 1 instances"], [], []⟩) none =
      Except.error PyErr.typeErrorSetNotSubscriptable := ⟨rfl, rfl⟩

unseal countOcc in
/-- C8: two distinct documents each producing the identical pattern label
("Blocking rule detected: 1 instances", from the BLOCKED conflict pattern of
the classifier) are collected with both copies kept by the repository loop, and
the aggregated report then does not collapse them to one line: the aggregation
step raises TypeError before emitting any line, because it slices a Python set
(`set(conflicts)[:10]`); the set-based dedup is the visible intent and the
subscript a slip. -/
theorem duplicate_labels_crash_aggregator :
    (analyze_file "docs/a.md" "state: BLOCKED").conflicts =
      ["Blocking rule detected: 1 instances"]
  ∧ (analyze_file "docs/b.md" "again BLOCKED!").conflicts =
      ["Blocking rule detected: 1 instances"]
  ∧ collectConflicts
      [analyze_file "docs/a.md" "state: BLOCKED", analyze_file "docs/b.md" "again BLOCKED!"] =
      ["Blocking rule detected: 1 instances", "Blocking rule detected: 1 instances"]
  ∧ create_alert none
      (some ⟨[], collectConflicts
        [analyze_file "docs/a.md" "state: BLOCKED",
         analyze_file "docs/b.md" "again BLOCKED!"], [], []⟩) none =
      Except.error PyErr.typeErrorSetNotSubscriptable :=
  ⟨rfl, rfl, rfl, rfl⟩

/-- C5 (counterexample): an unparsable static-results file is not treated like
a missing one by the threshold checker — its loader catches only the missing
case, so the parse error propagates and the run crashes, while the alert
generator's loader returns the same empty value for both cases. -/
theorem malformed_static_input_crashes_run :
    check_threshold_run FileState.malformed FileState.missing "t" =
      Except.error PyErr.jsonDecodeError
  ∧ load_json_file (FileState.malformed : FileState StaticResultsFile) = none
  ∧ load_json_file (FileState.missing : FileState StaticResultsFile) = none :=
  ⟨rfl, rfl, rfl⟩

/-- C5 (amended): the alert generator's loader treats an unparsable file
identically to a missing one (both yield the empty value), while the threshold
checker's two loaders return empty only for a missing file and let the parse
error of an unparsable file propagate. -/
theorem loader_malformed_handling :
    load_static_results FileState.missing = Except.ok none
  ∧ load_static_results FileState.malformed = Except.error PyErr.jsonDecodeError
  ∧ load_gpt_results FileState.missing = Except.ok none
  ∧ load_gpt_results FileState.malformed = Except.error PyErr.jsonDecodeError
  ∧ load_json_file (FileState.malformed : FileState StaticResultsFile) =
      load_json_file (FileState.missing : FileState StaticResultsFile) :=
  ⟨rfl, rfl, rfl, rfl, rfl⟩

/-- C6: a document whose id matches no baseline key never contributes a
verdict, whatever its score, yet every document increments files_checked and
adds its score to total_current. -/
theorem no_baseline_no_verdict_but_counted :
    ∀ (table : List (String × Nat)) (sr : StaticResults) (gpt : Option GptResults) (ts : String),
      (checkThreshold table (some sr) gpt ts).summary.files_checked = sr.file_analysis.length
    ∧ (checkThreshold table (some sr) gpt ts).summary.total_current =
        (sr.file_analysis.map (fun e => e.2.complexity_score)).sum
    ∧ ∀ (id : String), findBaseline table id = none →
        ∀ x ∈ (checkThreshold table (some sr) gpt ts).exceeded_files, x.file ≠ id := by
  intro table sr gpt ts
  rw [checkThreshold_eq]
  refine ⟨rfl, rfl, ?_⟩
  intro id hid x hx hxid
  rw [List.mem_flatMap] at hx
  obtain ⟨e, _he, hxe⟩ := hx
  obtain ⟨hfile, hsome⟩ := mem_emitVerdicts hxe
  rw [hfile] at hxid
  rw [hxid, hid] at hsome
  simp at hsome

/-- Witness for C6: the configured table, one document with an unmatched id and
a huge score — counted, but no verdict carries its id. -/
theorem no_baseline_no_verdict_instance :
    (checkThreshold baseline (some ⟨[("mystery.md", ⟨9999, 0, 0⟩)]⟩) none "t").summary.files_checked = 1
  ∧ (checkThreshold baseline (some ⟨[("mystery.md", ⟨9999, 0, 0⟩)]⟩) none "t").summary.total_current = 9999
  ∧ "mystery.md" ∉
      ((checkThreshold baseline (some ⟨[("mystery.md", ⟨9999, 0, 0⟩)]⟩) none "t").exceeded_files).map
        ExceededInfo.file := by
  have h := no_baseline_no_verdict_but_counted baseline ⟨[("mystery.md", ⟨9999, 0, 0⟩)]⟩ none "t"
  refine ⟨h.1, by rw [h.2.1]; norm_num, ?_⟩
  intro hmem
  rw [List.mem_map] at hmem
  obtain ⟨x, hx, hfx⟩ := hmem
  exact h.2.2 "mystery.md" (by decide) x hx hfx

/-- C7: baseline resolution returns the first table key, in declaration order,
that is a substring of the document id — when several keys are substrings of
the same id, declaration order decides. -/
theorem baseline_resolution_first_match :
    ∀ (pre post : List (String × Nat)) (k : String) (v : Nat) (id : String),
      (∀ p ∈ pre, strIn p.1 id = false) → strIn k id = true →
      findBaseline (pre ++ (k, v) :: post) id = some (k, v) := by
  intro pre
  induction pre with
  | nil =>
    intro post k v id _ hk
    simp [findBaseline, hk]
  | cons p ps ih =>
    intro post k v id hpre hk
    obtain ⟨pk, pv⟩ := p
    have hp : strIn pk id = false := hpre (pk, pv) (by simp)
    simp only [List.cons_append, findBaseline, hp]
    simp only [Bool.false_eq_true, if_false]
    exact ih post k v id (fun q hq => hpre q (by simp [hq])) hk

/-- Witness for C7: an id containing both the second and the third configured
baseline keys resolves to the second — the earlier declaration wins. -/
theorem baseline_resolution_first_match_instance :
    findBaseline baseline "x reflection-comprehensive.mdc architectural-planning.mdc" =
      some ("reflection-comprehensive.mdc", 70) := by
  have h := baseline_resolution_first_match
    [("workflow-level4.mdc", 80)]
    [("architectural-planning.mdc", 90), ("phased-implementation.mdc", 75),
     ("main-optimized.mdc", 60), ("hierarchical-rule-loading.mdc", 45),
     ("mode-transition-optimization.mdc", 40), ("optimization-integration.mdc", 50),
     ("optimized-workflow-level1.mdc", 30), ("optimized-creative-template.mdc", 35)]
    "reflection-comprehensive.mdc" 70
    "x reflection-comprehensive.mdc architectural-planning.mdc"
    (by decide) (by decide)
  exact h

end ComplexityPipeline
